import Mathlib

/-!
# The checkpoint server of `conn_ckpt.c`

A shallow embedding of `src/third_party/wiredtiger/src/conn/conn_ckpt.c`.

* The connection (`WT_CONNECTION_IMPL`) is a record of the fields this file reads
  or writes; every function takes the connection and returns the new one.
* Functions of other files (the configuration reader, sessions, condition
  variables, threads, the checkpoint operation) are not computed: the value each
  of them returns is an input of the model, and every such call is recorded, with
  the connection as it was when the call was made, in a trace.
* Machine integers are `Int`/`Nat`; the one place where the C arithmetic can wrap,
  the `uint64_t` product of line 43, is taken modulo `2 ^ 64`. A C string is the
  list of its bytes.
* The worker thread shares the connection with other threads: what they do while
  the worker is in a call, or between two of its statements, is an input of the
  model of the worker loop.
* The blocks under `#if defined (MSSD_DSM)` are compiled only when that macro is
  defined and touch no field of the connection; they are left out.
-/

namespace ConnCkpt

/-! ## Constants and macros of headers -/

/-- Modelled from the spec: the macro `WT_MILLION` is declared in a header that is
not part of this file; it is the number of microseconds in a second. -/
def WT_MILLION : Nat := 1000000

/-- The errno value `EINVAL`. -/
def EINVAL : Int := 22

/-- Modelled from the spec: the error code `WT_DUPLICATE_KEY`, used by `WT_TRET`,
is declared in a header that is not part of this file. -/
def WT_DUPLICATE_KEY : Int := -31801

/-- Modelled from the spec: the error code `WT_NOTFOUND`, used by `WT_TRET`, is
declared in a header that is not part of this file. -/
def WT_NOTFOUND : Int := -31803

/-- Modelled from the spec: the error code `WT_PANIC`, used by `WT_TRET`, is
declared in a header that is not part of this file. -/
def WT_PANIC : Int := -31804

/-- Modelled from the spec: the macro `WT_TRET` is declared in a header that is
not part of this file. `WT_TRET(a)` runs `a` and folds its return value into the
running `ret` without leaving the function: teardown errors are accumulated, not
short-circuited. A first error is kept; a later one replaces it only when it is
`WT_PANIC` or when the kept one is `WT_DUPLICATE_KEY` or `WT_NOTFOUND`. -/
def WT_TRET (ret a : Int) : Int :=
  if a ≠ 0 ∧ (a = WT_PANIC ∨ ret = 0 ∨ ret = WT_DUPLICATE_KEY ∨ ret = WT_NOTFOUND) then a
  else ret

/-- Modelled from the spec: the macro `WT_CHECKPOINT`, the default checkpoint
name, is declared in a header that is not part of this file. A C string is the
list of its bytes; these are the bytes of `WiredTigerCheckpoint`. -/
def WT_CHECKPOINT : List UInt8 :=
  [87, 105, 114, 101, 100, 84, 105, 103, 101, 114, 67, 104, 101, 99, 107, 112, 111, 105, 110,
    116]

/-- Modelled from the spec: the macro `WT_STRING_MATCH(str, bytes, len)` is
declared in a header that is not part of this file; it says whether the `len`
bytes at `bytes` are the whole of the C string `str`, here whether the configured
name is the default one. -/
def WT_STRING_MATCH (str bytes : List UInt8) (len : Nat) : Bool :=
  str.length == len && bytes.take len == str

/-- The bytes of `name=`, the fixed part of the format of line 77. -/
def name_format : List UInt8 := [110, 97, 109, 101, 61]

/-! ## Data model -/

/-- A configuration value as `__wt_config_gets` hands it back: `val` is the
`int64_t` reading of the value; `str` is the bytes at the pointer `str`, which run
on past the value, and `len` the number of those bytes that are the value. The
value holds no NUL byte. -/
structure WT_CONFIG_ITEM where
  str : List UInt8
  len : Nat
  val : Int
deriving DecidableEq, Repr

/-- The four configuration keys `__ckpt_server_config` looks up:
`checkpoint.wait`, `checkpoint.log_size`, `in_memory`, `checkpoint.name`. -/
inductive ConfigKey where
  | checkpoint_wait
  | checkpoint_log_size
  | in_memory
  | checkpoint_name
deriving DecidableEq, Repr

/-- The fields of the connection that the checkpoint server uses. A pointer is an
`Option` of an abstract handle number, `none` being `NULL`.
`server_run` and `server_checkpoint` are the bits `WT_CONN_SERVER_RUN` and
`WT_CONN_SERVER_CHECKPOINT` of `conn->flags`; `log_enabled` is the bit
`WT_CONN_LOG_ENABLED` of `conn->log_flags`; `log_written` is the log subsystem's
count of bytes written since the last checkpoint. -/
structure WT_CONNECTION_IMPL where
  server_run : Bool
  server_checkpoint : Bool
  log_enabled : Bool
  log_written : Int
  ckpt_usecs : Nat
  ckpt_logsize : Int
  ckpt_config : Option (List UInt8)
  ckpt_session : Option Nat
  ckpt_cond : Option Nat
  ckpt_tid : Nat
  ckpt_tid_set : Bool
  ckpt_signalled : Bool
deriving DecidableEq, Repr

/-- A call that leaves this file. -/
inductive Call where
  | config_gets (key : ConfigKey)
  | err_msg (code : Int)
  | log_written_reset
  | checkpoint_name_ok (name : List UInt8)
  | scr_alloc (size : Nat)
  | buf_fmt
  | strdup
  | scr_free
  | free (p : Option (List UInt8))
  | cond_wait (cond : Option Nat) (usecs : Nat)
  | checkpoint (config : Option (List UInt8))
  | panic_msg (ret : Int)
  | open_internal_session
  | cond_alloc
  | thread_create (session : Nat)
  | cond_signal (cond : Option Nat)
  | thread_join (tid : Nat)
  | cond_destroy (cond : Option Nat)
  | session_close (session : Nat)
deriving DecidableEq, Repr

/-- The calls made, oldest first, each with the connection at the time of the call. -/
abbrev Trace := List (Call × WT_CONNECTION_IMPL)

/-- Modelled from the spec: `__wt_log_written_reset` belongs to the log subsystem
and is not part of this file; it resets the count of log bytes written since the
last checkpoint. -/
def __wt_log_written_reset (conn : WT_CONNECTION_IMPL) : WT_CONNECTION_IMPL :=
  { conn with log_written := 0 }

/-! ## `__ckpt_server_config` -/

/-- What the functions called by `__ckpt_server_config` return. `config_gets key`
is the return value of `__wt_config_gets` for that key together with the item it
stores on success. -/
structure ConfigExt where
  config_gets : ConfigKey → Int × WT_CONFIG_ITEM
  checkpoint_name_ok : List UInt8 → Int
  scr_alloc : Int
  buf_fmt : Int
  strdup : Int

/-- The outcome of `__ckpt_server_config`: the return value, the connection, what
was stored through `startp` (`none` when the function returned before storing
anything) and the calls made. -/
structure ConfigResult where
  ret : Int
  conn : WT_CONNECTION_IMPL
  startp : Option Bool
  trace : Trace
deriving DecidableEq, Repr

/-- Lines 66-85 of `__ckpt_server_config`: the optional checkpoint name, reached
after `*startp = true`. The name is the first `cval.len` bytes at `cval.str`. -/
def ckpt_server_config_name (ext : ConfigExt) (conn : WT_CONNECTION_IMPL) (tr : Trace) :
    ConfigResult :=
  let g := ext.config_gets ConfigKey.checkpoint_name
  let tr := tr ++ [(Call.config_gets ConfigKey.checkpoint_name, conn)]
  if g.1 ≠ 0 then ⟨g.1, conn, some true, tr⟩
  else
    let cval := g.2
    if cval.len ≠ 0 ∧ WT_STRING_MATCH WT_CHECKPOINT cval.str cval.len = false then
      let name := cval.str.take cval.len
      let r := ext.checkpoint_name_ok name
      let tr := tr ++ [(Call.checkpoint_name_ok name, conn)]
      if r ≠ 0 then ⟨r, conn, some true, tr⟩
      else
        let tr := tr ++ [(Call.scr_alloc (cval.len + 20), conn)]
        if ext.scr_alloc ≠ 0 then ⟨ext.scr_alloc, conn, some true, tr⟩
        else
          let tr := tr ++ [(Call.buf_fmt, conn)]
          if ext.buf_fmt ≠ 0 then
            ⟨ext.buf_fmt, conn, some true, tr ++ [(Call.scr_free, conn)]⟩
          else
            let tr := tr ++ [(Call.strdup, conn)]
            if ext.strdup ≠ 0 then
              ⟨ext.strdup, conn, some true, tr ++ [(Call.scr_free, conn)]⟩
            else
              let tr := tr ++ [(Call.free conn.ckpt_config, conn)]
              let conn1 := { conn with ckpt_config := some (name_format ++ name) }
              ⟨0, conn1, some true, tr ++ [(Call.scr_free, conn1)]⟩
    else ⟨0, conn, some true, tr ++ [(Call.scr_free, conn)]⟩

/-- The conversion of line 43, `(uint64_t)cval.val * WT_MILLION`: the `int64_t`
value is read as a `uint64_t` and the product is taken in `uint64_t`. -/
def ckpt_usecs_of (val : Int) : Nat :=
  ((val % 2 ^ 64).toNat * WT_MILLION) % 2 ^ 64

/-- Lines 48-55 of `__ckpt_server_config`: the check against an in-memory
configuration. The first component is nonzero when the function returns here. -/
def ckpt_server_config_in_memory (ext : ConfigExt) (conn : WT_CONNECTION_IMPL) (tr : Trace) :
    Int × Trace :=
  if conn.ckpt_usecs ≠ 0 ∨ conn.ckpt_logsize ≠ 0 then
    let g := ext.config_gets ConfigKey.in_memory
    let tr := tr ++ [(Call.config_gets ConfigKey.in_memory, conn)]
    if g.1 ≠ 0 then (g.1, tr)
    else if g.2.val ≠ 0 then (EINVAL, tr ++ [(Call.err_msg EINVAL, conn)])
    else (0, tr)
  else (0, tr)

/-- Lines 57-85 of `__ckpt_server_config`: the decision stored through `startp`. -/
def ckpt_server_config_startp (ext : ConfigExt) (conn : WT_CONNECTION_IMPL) (tr : Trace) :
    ConfigResult :=
  let tr := tr ++ [(Call.log_written_reset, conn)]
  let conn := __wt_log_written_reset conn
  if (conn.ckpt_usecs = 0 ∧ conn.ckpt_logsize = 0) ∨
      (conn.ckpt_logsize ≠ 0 ∧ conn.ckpt_usecs = 0 ∧ conn.log_enabled = false) then
    ⟨0, conn, some false, tr⟩
  else
    ckpt_server_config_name ext conn tr

/-- The function `__ckpt_server_config`, lines 26-86. -/
def __ckpt_server_config (ext : ConfigExt) (conn : WT_CONNECTION_IMPL) : ConfigResult :=
  let g := ext.config_gets ConfigKey.checkpoint_wait
  let tr : Trace := [(Call.config_gets ConfigKey.checkpoint_wait, conn)]
  if g.1 ≠ 0 then ⟨g.1, conn, none, tr⟩
  else
    -- conn->ckpt_usecs = (uint64_t)cval.val * WT_MILLION;
    let conn := { conn with ckpt_usecs := ckpt_usecs_of g.2.val }
    let g := ext.config_gets ConfigKey.checkpoint_log_size
    let tr := tr ++ [(Call.config_gets ConfigKey.checkpoint_log_size, conn)]
    if g.1 ≠ 0 then ⟨g.1, conn, none, tr⟩
    else
      -- conn->ckpt_logsize = (wt_off_t)cval.val;
      let conn := { conn with ckpt_logsize := g.2.val }
      let gate := ckpt_server_config_in_memory ext conn tr
      if gate.1 ≠ 0 then ⟨gate.1, conn, none, gate.2⟩
      else ckpt_server_config_startp ext conn gate.2

/-! ## `__ckpt_server` -/

/-- What other threads may do to the connection while the worker is blocked in a
call or stands between two of its statements: clear `WT_CONN_SERVER_RUN`
(connection close), clear `WT_CONN_SERVER_CHECKPOINT` (line 247), set
`ckpt_signalled` (line 290), append to the log. -/
structure Interference where
  clear_run : Bool
  clear_checkpoint : Bool
  set_signalled : Bool
  log_bytes : Nat
deriving DecidableEq, Repr

/-- The connection after the other threads have acted. -/
def interfere (i : Interference) (conn : WT_CONNECTION_IMPL) : WT_CONNECTION_IMPL :=
  { conn with
    server_run := conn.server_run && !i.clear_run
    server_checkpoint := conn.server_checkpoint && !i.clear_checkpoint
    ckpt_signalled := conn.ckpt_signalled || i.set_signalled
    log_written := conn.log_written + i.log_bytes }

/-- What one pass of the worker loop meets: the return value of the main wait, of
the checkpoint operation and of the short wait of line 160, and what the other
threads did meanwhile: `wait_env` from the test of the guard until the main wait
returns, `checkpoint_env` from then until the log counter is reset on line 151 (with a
zero threshold, until the guard is tested again),
`reset_env` between that reset and the store of line 152, `store_env` between
that store and the call of line 160, `drain_env` during that call and until the
guard is tested again. Nothing the worker reads between two of these points is a
field the other threads change. -/
structure Iteration where
  wait_ret : Int
  wait_env : Interference
  checkpoint_ret : Int
  checkpoint_env : Interference
  reset_env : Interference
  store_env : Interference
  drain_ret : Int
  drain_env : Interference
deriving DecidableEq, Repr

/-- The body of the `while` loop of `__ckpt_server`, lines 128-161. A nonzero
first component is the `ret` with which `WT_ERR` jumps to `err`. -/
def ckpt_server_body (o : Iteration) (conn : WT_CONNECTION_IMPL) :
    Int × WT_CONNECTION_IMPL × Trace :=
  -- WT_ERR(__wt_cond_wait(session, conn->ckpt_cond, conn->ckpt_usecs));
  let tr : Trace := [(Call.cond_wait conn.ckpt_cond conn.ckpt_usecs, conn)]
  let conn := interfere o.wait_env conn
  if o.wait_ret ≠ 0 then (o.wait_ret, conn, tr)
  else
    -- WT_ERR(wt_session->checkpoint(wt_session, conn->ckpt_config));
    let tr := tr ++ [(Call.checkpoint conn.ckpt_config, conn)]
    let conn := interfere o.checkpoint_env conn
    if o.checkpoint_ret ≠ 0 then (o.checkpoint_ret, conn, tr)
    else if conn.ckpt_logsize ≠ 0 then
      -- __wt_log_written_reset(session);
      let tr := tr ++ [(Call.log_written_reset, conn)]
      let conn := __wt_log_written_reset conn
      let conn := interfere o.reset_env conn
      -- conn->ckpt_signalled = 0;
      let conn := { conn with ckpt_signalled := false }
      let conn := interfere o.store_env conn
      -- WT_ERR(__wt_cond_wait(session, conn->ckpt_cond, 1));
      let tr := tr ++ [(Call.cond_wait conn.ckpt_cond 1, conn)]
      let conn := interfere o.drain_env conn
      (o.drain_ret, conn, tr)
    else (0, conn, tr)

/-- How a run of the worker ends: the loop guard failed and the thread returned;
a call failed and the thread reported a panic; or the passes supplied are used up
while the guard still holds, the thread being about to wait again. -/
inductive WorkerExit where
  | returned
  | panicked (ret : Int)
  | running
deriving DecidableEq, Repr

/-- The function `__ckpt_server`, lines 110-168, run over the passes supplied. -/
def __ckpt_server : List Iteration → WT_CONNECTION_IMPL →
    WorkerExit × WT_CONNECTION_IMPL × Trace
  | os, conn =>
    if (conn.server_run && conn.server_checkpoint) = false then
      (WorkerExit.returned, conn, [])
    else
      match os with
      | [] => (WorkerExit.running, conn, [])
      | o :: rest =>
        let b := ckpt_server_body o conn
        if b.1 ≠ 0 then
          (WorkerExit.panicked b.1, b.2.1, b.2.2 ++ [(Call.panic_msg b.1, b.2.1)])
        else
          let r := __ckpt_server rest b.2.1
          (r.1, r.2.1, b.2.2 ++ r.2.2)

/-! ## `__ckpt_server_start` -/

/-- What an allocating call returns: its return value and the handle it stores
through its out-parameter when the return value is zero. -/
structure Alloc where
  ret : Int
  handle : Nat
deriving DecidableEq, Repr

/-- What the functions called by `__ckpt_server_start` return. -/
structure StartExt where
  open_internal_session : Alloc
  cond_alloc : Alloc
  thread_create : Alloc
deriving DecidableEq, Repr

/-- The function `__ckpt_server_start`, lines 174-208. A failing call leaves its
out-parameter as it was. -/
def __ckpt_server_start (ext : StartExt) (conn : WT_CONNECTION_IMPL) :
    Int × WT_CONNECTION_IMPL × Trace :=
  if conn.ckpt_session ≠ none then (0, conn, [])
  else
    let conn := { conn with server_checkpoint := true }
    let tr : Trace := [(Call.open_internal_session, conn)]
    if ext.open_internal_session.ret ≠ 0 then (ext.open_internal_session.ret, conn, tr)
    else
      let conn := { conn with ckpt_session := some ext.open_internal_session.handle }
      let tr := tr ++ [(Call.cond_alloc, conn)]
      if ext.cond_alloc.ret ≠ 0 then (ext.cond_alloc.ret, conn, tr)
      else
        let conn := { conn with ckpt_cond := some ext.cond_alloc.handle }
        let tr := tr ++ [(Call.thread_create ext.open_internal_session.handle, conn)]
        if ext.thread_create.ret ≠ 0 then (ext.thread_create.ret, conn, tr)
        else
          let conn := { conn with ckpt_tid := ext.thread_create.handle }
          (0, { conn with ckpt_tid_set := true }, tr)

/-! ## `__wt_checkpoint_server_destroy` -/

/-- What the functions called by `__wt_checkpoint_server_destroy` return, given
the handle each is called on. -/
structure DestroyExt where
  cond_signal : Option Nat → Int
  thread_join : Nat → Int
  cond_destroy : Nat → Int
  session_close : Nat → Int

/-- Modelled from the spec: `__wt_cond_destroy` is not part of this file. Called on
a `NULL` condition variable it does nothing and returns success (stop is safe to
call when no handle exists); otherwise it returns what the environment says. Its
store of `NULL` through the pointer it is given is the store of line 269. -/
def __wt_cond_destroy (ext : DestroyExt) (cond : Option Nat) : Int :=
  match cond with
  | none => 0
  | some c => ext.cond_destroy c

/-- The function `__wt_checkpoint_server_destroy`, lines 238-274. -/
def __wt_checkpoint_server_destroy (ext : DestroyExt) (conn : WT_CONNECTION_IMPL) :
    Int × WT_CONNECTION_IMPL × Trace :=
  -- F_CLR(conn, WT_CONN_SERVER_CHECKPOINT);
  let conn := { conn with server_checkpoint := false }
  let s1 : Int × WT_CONNECTION_IMPL × Trace :=
    if conn.ckpt_tid_set = true then
      let ret := WT_TRET 0 (ext.cond_signal conn.ckpt_cond)
      let ret := WT_TRET ret (ext.thread_join conn.ckpt_tid)
      (ret, { conn with ckpt_tid_set := false },
        [(Call.cond_signal conn.ckpt_cond, conn), (Call.thread_join conn.ckpt_tid, conn)])
    else (0, conn, [])
  let conn := s1.2.1
  -- WT_TRET(__wt_cond_destroy(session, &conn->ckpt_cond));
  let ret := WT_TRET s1.1 (__wt_cond_destroy ext conn.ckpt_cond)
  let tr := s1.2.2 ++ [(Call.cond_destroy conn.ckpt_cond, conn)]
  -- __wt_free(session, conn->ckpt_config);
  let tr := tr ++ [(Call.free conn.ckpt_config, conn)]
  let conn := { conn with ckpt_config := none }
  let s2 : Int × Trace :=
    match conn.ckpt_session with
    | some s => (WT_TRET ret (ext.session_close s), tr ++ [(Call.session_close s, conn)])
    | none => (ret, tr)
  let conn := { conn with ckpt_session := none }
  let conn := { conn with ckpt_tid_set := false }
  let conn := { conn with ckpt_cond := none }
  let conn := { conn with ckpt_config := none }
  let conn := { conn with ckpt_usecs := 0 }
  (s2.1, conn, s2.2)

/-! ## `__wt_checkpoint_signal` -/

/-- The function `__wt_checkpoint_signal`, lines 281-293. `diagnostic` says
whether `WT_ASSERT` is compiled in; a failed assertion aborts, which is `none`.
`signal_ret` is what `__wt_cond_signal` returns when it is called. -/
def __wt_checkpoint_signal (diagnostic : Bool) (signal_ret : Int)
    (conn : WT_CONNECTION_IMPL) (logsize : Int) :
    Option (Int × WT_CONNECTION_IMPL × Trace) :=
  -- WT_ASSERT(session, WT_CKPT_LOGSIZE(conn));
  if diagnostic = true ∧ conn.ckpt_logsize = 0 then none
  else if logsize ≥ conn.ckpt_logsize ∧ conn.ckpt_signalled = false then
    if signal_ret ≠ 0 then some (signal_ret, conn, [(Call.cond_signal conn.ckpt_cond, conn)])
    else
      some (0, { conn with ckpt_signalled := true },
        [(Call.cond_signal conn.ckpt_cond, conn)])
  else some (0, conn, [])

/-! ## Callers of `__wt_checkpoint_signal` running at the same time -/

/-- Where a caller of `__wt_checkpoint_signal` stands: before the test of line
288, before the call of line 289, before the store of line 290, or returned. -/
inductive SignalPc where
  | test
  | signal
  | store
  | done (ret : Int)
deriving DecidableEq, Repr

/-- A caller of `__wt_checkpoint_signal`: its argument and where it stands. -/
structure Caller where
  logsize : Int
  pc : SignalPc
deriving DecidableEq, Repr

/-- One statement of `__wt_checkpoint_signal` (lines 288, 289, 290) executed by
one caller on the shared connection. The source takes no lock and uses no atomic
operation, so each statement is a step of its own. -/
def signal_step (signal_ret : Int) (conn : WT_CONNECTION_IMPL) (t : Caller) :
    WT_CONNECTION_IMPL × Caller × Trace :=
  match t.pc with
  | SignalPc.test =>
    if t.logsize ≥ conn.ckpt_logsize ∧ conn.ckpt_signalled = false then
      (conn, { t with pc := SignalPc.signal }, [])
    else (conn, { t with pc := SignalPc.done 0 }, [])
  | SignalPc.signal =>
    if signal_ret ≠ 0 then
      (conn, { t with pc := SignalPc.done signal_ret }, [(Call.cond_signal conn.ckpt_cond, conn)])
    else (conn, { t with pc := SignalPc.store }, [(Call.cond_signal conn.ckpt_cond, conn)])
  | SignalPc.store =>
    ({ conn with ckpt_signalled := true }, { t with pc := SignalPc.done 0 }, [])
  | SignalPc.done _ => (conn, t, [])

/-- The callers run interleaved: the schedule names, step by step, the caller
that executes its next statement. -/
def run_schedule (signal_ret : Int) :
    List Nat → WT_CONNECTION_IMPL × List Caller × Trace → WT_CONNECTION_IMPL × List Caller × Trace
  | [], st => st
  | i :: rest, (conn, callers, tr) =>
    match callers.get? i with
    | none => run_schedule signal_ret rest (conn, callers, tr)
    | some t =>
      let r := signal_step signal_ret conn t
      run_schedule signal_ret rest (r.1, callers.set i r.2.1, tr ++ r.2.2)

/-- Calls of `__wt_checkpoint_signal` made one after the other, each returning
before the next starts, with the byte counts given. -/
def signal_calls (diagnostic : Bool) (signal_ret : Int) :
    List Int → WT_CONNECTION_IMPL → Option (WT_CONNECTION_IMPL × Trace)
  | [], conn => some (conn, [])
  | logsize :: rest, conn =>
    match __wt_checkpoint_signal diagnostic signal_ret conn logsize with
    | none => none
    | some r =>
      match signal_calls diagnostic signal_ret rest r.2.1 with
      | none => none
      | some q => some (q.1, r.2.2 ++ q.2)

/-- The calls of `__wt_cond_signal` in a trace. -/
def signals (tr : Trace) : Trace :=
  tr.filter (fun e => match e.1 with
    | Call.cond_signal _ => true
    | _ => false)

/-- The calls of `__wt_log_written_reset` in a trace. -/
def resets (tr : Trace) : Trace :=
  tr.filter (fun e => match e.1 with
    | Call.log_written_reset => true
    | _ => false)

/-- The calls of the checkpoint operation in a trace. -/
def checkpoints (tr : Trace) : Trace :=
  tr.filter (fun e => match e.1 with
    | Call.checkpoint _ => true
    | _ => false)

/-! ## Sample inputs -/

/-- A connection with nothing configured and no server. -/
def conn_idle : WT_CONNECTION_IMPL :=
  { server_run := true, server_checkpoint := false, log_enabled := false, log_written := 0,
    ckpt_usecs := 0, ckpt_logsize := 0, ckpt_config := none, ckpt_session := none,
    ckpt_cond := none, ckpt_tid := 0, ckpt_tid_set := false, ckpt_signalled := false }

/-- A connection with a running server: session 7, condition variable 8, thread
9, a ten second interval and a log threshold of 100 bytes. -/
def conn_running : WT_CONNECTION_IMPL :=
  { server_run := true, server_checkpoint := true, log_enabled := true, log_written := 40,
    ckpt_usecs := 10000000, ckpt_logsize := 100, ckpt_config := none, ckpt_session := some 7,
    ckpt_cond := some 8, ckpt_tid := 9, ckpt_tid_set := true, ckpt_signalled := false }

/-- A configuration: the values of `checkpoint.wait`, `checkpoint.log_size` and
`in_memory`, no checkpoint name, every call succeeding. -/
def config_of (wait log_size in_memory : Int) : ConfigExt :=
  { config_gets := fun k =>
      match k with
      | ConfigKey.checkpoint_wait => (0, ⟨[], 0, wait⟩)
      | ConfigKey.checkpoint_log_size => (0, ⟨[], 0, log_size⟩)
      | ConfigKey.in_memory => (0, ⟨[], 0, in_memory⟩)
      | ConfigKey.checkpoint_name => (0, ⟨[], 0, 0⟩)
    checkpoint_name_ok := fun _ => 0
    scr_alloc := 0
    buf_fmt := 0
    strdup := 0 }

/-- A configuration with the wait given and a checkpoint name: the bytes at the
name's pointer and the length of the name; no log size, `in_memory` unset, every
call succeeding. -/
def config_named (wait : Int) (str : List UInt8) (len : Nat) : ConfigExt :=
  { config_gets := fun k =>
      match k with
      | ConfigKey.checkpoint_wait => (0, ⟨[], 0, wait⟩)
      | ConfigKey.checkpoint_log_size => (0, ⟨[], 0, 0⟩)
      | ConfigKey.in_memory => (0, ⟨[], 0, 0⟩)
      | ConfigKey.checkpoint_name => (0, ⟨str, len, 0⟩)
    checkpoint_name_ok := fun _ => 0
    scr_alloc := 0
    buf_fmt := 0
    strdup := 0 }

/-- Other threads doing nothing. -/
def quiet : Interference := ⟨false, false, false, 0⟩

/-- A pass in which every call succeeds; a growth signal arrives during the main
wait, after 200 bytes were logged, 30 more bytes are logged between the reset and
the store of line 152, and a second growth signal arrives, after 5 more bytes,
between that store and the wait of line 160. -/
def pass_signalled : Iteration :=
  { wait_ret := 0, wait_env := ⟨false, false, true, 200⟩,
    checkpoint_ret := 0, checkpoint_env := quiet,
    reset_env := ⟨false, false, false, 30⟩, store_env := ⟨false, false, true, 5⟩,
    drain_ret := 0, drain_env := quiet }

/-- A pass in which every call succeeds and, during the main wait, the
checkpoint-enabled flag is cleared, as line 247 does before the signal of line
249. -/
def pass_stopped : Iteration :=
  { wait_ret := 0, wait_env := ⟨false, true, false, 0⟩,
    checkpoint_ret := 0, checkpoint_env := quiet,
    reset_env := quiet, store_env := quiet,
    drain_ret := 0, drain_env := quiet }

/-- The pass of `pass_stopped` with the short wait of line 160 failing with 5. -/
def pass_stopped_drain_fails : Iteration :=
  { pass_stopped with drain_ret := 5 }

/-! ## Lemmas -/

/-- The `uint64_t` product of line 43 is zero exactly for the multiples of
`2 ^ 58`: a million is `2 ^ 6 * 15625`. -/
theorem usecs_eq_zero_iff (w : Int) : ckpt_usecs_of w = 0 ↔ (2 : Int) ^ 58 ∣ w := by
  unfold ckpt_usecs_of WT_MILLION
  norm_num
  omega

/-- The name part always stores `true` through `startp`. -/
theorem ckpt_server_config_name_startp (ext : ConfigExt) (conn : WT_CONNECTION_IMPL)
    (tr : Trace) : (ckpt_server_config_name ext conn tr).startp = some true := by
  unfold ckpt_server_config_name
  simp only []
  split_ifs <;> rfl

/-- The length of a configured name counts bytes: of the bytes `c3 a9 61 2c 78`
with length 3 the name stored is `name=` followed by `c3 a9 61`. -/
theorem ckpt_server_config_name_bytes :
    (__ckpt_server_config (config_named 10 [195, 169, 97, 44, 120] 3) conn_idle).conn.ckpt_config =
      some [110, 97, 109, 101, 61, 195, 169, 97] ∧
    (__ckpt_server_config (config_named 10 [195, 169, 97, 44, 120] 3) conn_idle).ret = 0 := by
  constructor <;> decide

/-- The default name is not stored: with the bytes of `WiredTigerCheckpoint` and
length 20 configured, `ckpt_config` stays `NULL`. -/
theorem ckpt_server_config_default_name :
    (__ckpt_server_config (config_named 10 WT_CHECKPOINT 20) conn_idle).conn.ckpt_config = none ∧
    (__ckpt_server_config (config_named 10 WT_CHECKPOINT 20) conn_idle).startp = some true := by
  constructor <;> decide

/-- The result of `__ckpt_server_config` once the first two lookups succeed. -/
theorem ckpt_server_config_eq (ext : ConfigExt) (conn : WT_CONNECTION_IMPL)
    (hw : (ext.config_gets ConfigKey.checkpoint_wait).1 = 0)
    (hl : (ext.config_gets ConfigKey.checkpoint_log_size).1 = 0) :
    ∃ c tr, c.ckpt_usecs = ckpt_usecs_of (ext.config_gets ConfigKey.checkpoint_wait).2.val ∧
      c.ckpt_logsize = (ext.config_gets ConfigKey.checkpoint_log_size).2.val ∧
      c.log_enabled = conn.log_enabled ∧
      __ckpt_server_config ext conn =
        if (ckpt_server_config_in_memory ext c tr).1 ≠ 0 then
          ⟨(ckpt_server_config_in_memory ext c tr).1, c, none,
            (ckpt_server_config_in_memory ext c tr).2⟩
        else ckpt_server_config_startp ext c (ckpt_server_config_in_memory ext c tr).2 := by
  refine ⟨{ conn with
      ckpt_usecs := ckpt_usecs_of (ext.config_gets ConfigKey.checkpoint_wait).2.val
      ckpt_logsize := (ext.config_gets ConfigKey.checkpoint_log_size).2.val },
    [(Call.config_gets ConfigKey.checkpoint_wait, conn),
      (Call.config_gets ConfigKey.checkpoint_log_size,
        { conn with
          ckpt_usecs := ckpt_usecs_of (ext.config_gets ConfigKey.checkpoint_wait).2.val })],
    rfl, rfl, rfl, ?_⟩
  unfold __ckpt_server_config
  simp only [hw, hl, ne_eq, not_true_eq_false, if_false]
  rfl

/-- Where `__ckpt_server_config` stands once the three lookups of lines 42-55
have succeeded with `in_memory` unset: it has stored through `startp`, `false`
with return value 0 when the converted interval and the log size leave nothing to
run, `true` otherwise. -/
theorem ckpt_server_config_decides (ext : ConfigExt) (conn : WT_CONNECTION_IMPL)
    (hw : (ext.config_gets ConfigKey.checkpoint_wait).1 = 0)
    (hl : (ext.config_gets ConfigKey.checkpoint_log_size).1 = 0)
    (hm : (ext.config_gets ConfigKey.in_memory).1 = 0)
    (hmv : (ext.config_gets ConfigKey.in_memory).2.val = 0) :
    ((((2 : Int) ^ 58 ∣ (ext.config_gets ConfigKey.checkpoint_wait).2.val ∧
          (ext.config_gets ConfigKey.checkpoint_log_size).2.val = 0) ∨
        ((ext.config_gets ConfigKey.checkpoint_log_size).2.val ≠ 0 ∧
          (2 : Int) ^ 58 ∣ (ext.config_gets ConfigKey.checkpoint_wait).2.val ∧
          conn.log_enabled = false)) →
      (__ckpt_server_config ext conn).startp = some false ∧
        (__ckpt_server_config ext conn).ret = 0) ∧
    (¬ (((2 : Int) ^ 58 ∣ (ext.config_gets ConfigKey.checkpoint_wait).2.val ∧
          (ext.config_gets ConfigKey.checkpoint_log_size).2.val = 0) ∨
        ((ext.config_gets ConfigKey.checkpoint_log_size).2.val ≠ 0 ∧
          (2 : Int) ^ 58 ∣ (ext.config_gets ConfigKey.checkpoint_wait).2.val ∧
          conn.log_enabled = false)) →
      (__ckpt_server_config ext conn).startp = some true) := by
  obtain ⟨c, tr, hu, hs, he, hr⟩ := ckpt_server_config_eq ext conn hw hl
  have hz := usecs_eq_zero_iff (ext.config_gets ConfigKey.checkpoint_wait).2.val
  rw [← hu] at hz
  rw [← hz, ← hs, ← he, hr]
  have hg : (ckpt_server_config_in_memory ext c tr).1 = 0 := by
    unfold ckpt_server_config_in_memory
    simp only [hm, hmv, ne_eq, not_true_eq_false, if_false]
    split_ifs <;> rfl
  simp only [hg, ne_eq, not_true_eq_false, if_false]
  unfold ckpt_server_config_startp
  simp only [__wt_log_written_reset]
  constructor
  · intro h
    rw [if_pos h]
    exact ⟨rfl, rfl⟩
  · intro h
    rw [if_neg h]
    exact ckpt_server_config_name_startp _ _ _

/-! ## The configuration resolver -/

/-- C1, as stated, fails: with `checkpoint.wait = 2 ^ 58`, `checkpoint.log_size = 0`
and `in_memory` unset, the wait is nonzero, so neither of the two conditions for an
inactive policy holds, yet `__ckpt_server_config` stores `false` through `startp`
and returns 0: the `uint64_t` product of line 43 wraps to zero. -/
theorem ckpt_server_config_inactive_at_wrapped_wait :
    ¬ (((288230376151711744 : Int) = 0 ∧ (0 : Int) = 0) ∨
        ((0 : Int) ≠ 0 ∧ (288230376151711744 : Int) = 0 ∧ conn_idle.log_enabled = false)) ∧
    (__ckpt_server_config (config_of 288230376151711744 0 0) conn_idle).startp = some false ∧
    (__ckpt_server_config (config_of 288230376151711744 0 0) conn_idle).ret = 0 := by
  refine ⟨by decide, ?_, ?_⟩ <;> decide

/-- C1, amended: when the three lookups succeed, `in_memory` is unset and the
configured wait is zero or not a multiple of `2 ^ 58` (every wait of magnitude
below `2 ^ 58` is such), `__ckpt_server_config` stores `false` through `startp`
and returns 0 exactly when (wait = 0 and log_size = 0) or (log_size ≠ 0 and
wait = 0 and logging is disabled), and stores `true` in every other case. -/
theorem ckpt_server_config_active_iff (ext : ConfigExt) (conn : WT_CONNECTION_IMPL)
    (wait log_size : Int)
    (hw : (ext.config_gets ConfigKey.checkpoint_wait).1 = 0)
    (hwv : (ext.config_gets ConfigKey.checkpoint_wait).2.val = wait)
    (hl : (ext.config_gets ConfigKey.checkpoint_log_size).1 = 0)
    (hlv : (ext.config_gets ConfigKey.checkpoint_log_size).2.val = log_size)
    (hm : (ext.config_gets ConfigKey.in_memory).1 = 0)
    (hmv : (ext.config_gets ConfigKey.in_memory).2.val = 0)
    (hwrap : wait = 0 ∨ ¬ (2 : Int) ^ 58 ∣ wait) :
    (((wait = 0 ∧ log_size = 0) ∨ (log_size ≠ 0 ∧ wait = 0 ∧ conn.log_enabled = false)) →
      (__ckpt_server_config ext conn).startp = some false ∧
        (__ckpt_server_config ext conn).ret = 0) ∧
    (¬ ((wait = 0 ∧ log_size = 0) ∨ (log_size ≠ 0 ∧ wait = 0 ∧ conn.log_enabled = false)) →
      (__ckpt_server_config ext conn).startp = some true) := by
  have hd : (2 : Int) ^ 58 ∣ wait ↔ wait = 0 := by
    constructor
    · intro h
      rcases hwrap with h0 | h0
      · exact h0
      · exact absurd h h0
    · intro h
      rw [h]
      exact dvd_zero _
  have key := ckpt_server_config_decides ext conn hw hl hm hmv
  simp only [hwv, hlv, hd] at key
  exact key

/-- C1, amended, at `checkpoint.wait = 10`, `checkpoint.log_size = 0`: the policy
is reported active. -/
theorem ckpt_server_config_active_iff_witness :
    (__ckpt_server_config (config_of 10 0 0) conn_idle).startp = some true :=
  (ckpt_server_config_active_iff (config_of 10 0 0) conn_idle 10 0 rfl rfl rfl rfl rfl rfl
    (Or.inr (by decide))).2 (by decide)

/-- C2, as stated, fails: with `in_memory` set, `checkpoint.wait = 2 ^ 58` and
`checkpoint.log_size = 0`, the configured wait is nonzero, yet
`__ckpt_server_config` returns 0 and not `EINVAL` (it stores `false` through
`startp`): the converted value tested on line 49 has wrapped to zero, so the
`in_memory` key is never read. -/
theorem ckpt_server_config_in_memory_wrapped_wait :
    (288230376151711744 : Int) ≠ 0 ∧
    ((config_of 288230376151711744 0 1).config_gets ConfigKey.in_memory).2.val ≠ 0 ∧
    (__ckpt_server_config (config_of 288230376151711744 0 1) conn_idle).ret = 0 ∧
    (__ckpt_server_config (config_of 288230376151711744 0 1) conn_idle).ret ≠ EINVAL ∧
    (__ckpt_server_config (config_of 288230376151711744 0 1) conn_idle).startp = some false := by
  refine ⟨by decide, by decide, ?_, ?_, ?_⟩ <;> decide

/-- C2, amended: when the lookups succeed and `in_memory` is set, then (a) if the
configured wait is not a multiple of `2 ^ 58` (every nonzero wait of magnitude
below `2 ^ 58` is such, and its conversion `(uint64_t)wait * 1,000,000` is
nonzero) or the configured log size is nonzero, `__ckpt_server_config` returns
`EINVAL` and stores nothing through `startp`; and (b) whatever the configured
values, it never stores `true` through `startp`. -/
theorem ckpt_server_config_in_memory_einval (ext : ConfigExt) (conn : WT_CONNECTION_IMPL)
    (wait log_size : Int)
    (hw : (ext.config_gets ConfigKey.checkpoint_wait).1 = 0)
    (hwv : (ext.config_gets ConfigKey.checkpoint_wait).2.val = wait)
    (hl : (ext.config_gets ConfigKey.checkpoint_log_size).1 = 0)
    (hlv : (ext.config_gets ConfigKey.checkpoint_log_size).2.val = log_size)
    (hm : (ext.config_gets ConfigKey.in_memory).1 = 0)
    (hmv : (ext.config_gets ConfigKey.in_memory).2.val ≠ 0) :
    ((¬ (2 : Int) ^ 58 ∣ wait ∨ log_size ≠ 0) →
      (__ckpt_server_config ext conn).ret = EINVAL ∧
        (__ckpt_server_config ext conn).startp = none) ∧
    (__ckpt_server_config ext conn).startp ≠ some true := by
  obtain ⟨c, tr, hu, hs, _, hr⟩ := ckpt_server_config_eq ext conn hw hl
  have hz := usecs_eq_zero_iff (ext.config_gets ConfigKey.checkpoint_wait).2.val
  rw [← hu, hwv] at hz
  rw [hlv] at hs
  rw [hr]
  by_cases hgate : c.ckpt_usecs ≠ 0 ∨ c.ckpt_logsize ≠ 0
  · have hg : ckpt_server_config_in_memory ext c tr =
        (EINVAL, (tr ++ [(Call.config_gets ConfigKey.in_memory, c)]) ++
          [(Call.err_msg EINVAL, c)]) := by
      unfold ckpt_server_config_in_memory
      simp only [if_pos hgate, hm, hmv, ne_eq, not_true_eq_false, not_false_eq_true,
        if_false, if_true]
    have he : EINVAL ≠ 0 := by decide
    simp only [hg, he, ne_eq, not_false_eq_true, if_true]
    refine ⟨fun _ => ?_, ?_⟩ <;> simp
  · have hg : ckpt_server_config_in_memory ext c tr = (0, tr) := by
      unfold ckpt_server_config_in_memory
      simp only [if_neg hgate]
    have h0 : c.ckpt_usecs = 0 ∧ c.ckpt_logsize = 0 := by
      constructor
      · by_contra h
        exact hgate (Or.inl h)
      · by_contra h
        exact hgate (Or.inr h)
    simp only [hg, ne_eq, not_true_eq_false, if_false]
    constructor
    · intro h
      rcases h with h | h
      · exact absurd (hz.mp h0.1) h
      · exact absurd (hs ▸ h0.2) h
    · unfold ckpt_server_config_startp
      simp only [__wt_log_written_reset]
      rw [if_pos (Or.inl h0)]
      simp

/-- C2, amended, at `in_memory` set with `checkpoint.wait = 10`: the call fails
with `EINVAL` and stores nothing through `startp`. -/
theorem ckpt_server_config_in_memory_einval_witness :
    (__ckpt_server_config (config_of 10 0 1) conn_idle).ret = EINVAL ∧
    (__ckpt_server_config (config_of 10 0 1) conn_idle).startp = none :=
  (ckpt_server_config_in_memory_einval (config_of 10 0 1) conn_idle 10 0 rfl rfl rfl rfl rfl
    (by decide)).1 (Or.inl (by decide))

/-! ## The growth gate -/

/-- C3: for a connection with a nonzero log-size threshold and a succeeding
condition signal, `__wt_checkpoint_signal` returns normally in either build; when
the observed byte count has reached the threshold and `ckpt_signalled` is false it
makes exactly one call, a signal on `ckpt_cond`, and sets `ckpt_signalled`, changing
nothing else; otherwise it makes no call and leaves the connection as it was. -/
theorem checkpoint_signal_once (diagnostic : Bool) (conn : WT_CONNECTION_IMPL)
    (logsize : Int) (hsize : conn.ckpt_logsize ≠ 0) :
    ((logsize ≥ conn.ckpt_logsize ∧ conn.ckpt_signalled = false) →
      __wt_checkpoint_signal diagnostic 0 conn logsize =
        some (0, { conn with ckpt_signalled := true },
          [(Call.cond_signal conn.ckpt_cond, conn)])) ∧
    (¬ (logsize ≥ conn.ckpt_logsize ∧ conn.ckpt_signalled = false) →
      __wt_checkpoint_signal diagnostic 0 conn logsize = some (0, conn, [])) := by
  unfold __wt_checkpoint_signal
  constructor
  · intro h
    simp [hsize, h.1, h.2]
  · intro h
    have h1 : ¬ (conn.ckpt_logsize ≤ logsize ∧ conn.ckpt_signalled = false) := h
    simp only [hsize, and_false, if_false, ge_iff_le, h1]

/-- C3 at a threshold of 100 bytes, 150 bytes observed, not yet signalled: one
signal on condition variable 8, and the flag is set. -/
theorem checkpoint_signal_once_witness :
    __wt_checkpoint_signal true 0 conn_running 150 =
      some (0, { conn_running with ckpt_signalled := true },
        [(Call.cond_signal conn_running.ckpt_cond, conn_running)]) :=
  (checkpoint_signal_once true conn_running 150 (by decide)).1 ⟨by decide, rfl⟩

/-- C8, the code at the failing input: with a threshold of 100 bytes, 150 bytes
observed and `ckpt_signalled` false, `__wt_checkpoint_signal` signals the
checkpoint thread (one signal, flag set) and returns 0, where its header comment
promises 1. -/
theorem checkpoint_signal_returns_zero_when_signalling :
    (150 : Int) ≥ conn_running.ckpt_logsize ∧ conn_running.ckpt_signalled = false ∧
    (__wt_checkpoint_signal false 0 conn_running 150).map (fun r => r.1) = some 0 ∧
    (__wt_checkpoint_signal false 0 conn_running 150).map (fun r => (signals r.2.2).length) =
      some 1 ∧
    (__wt_checkpoint_signal false 0 conn_running 150).map (fun r => r.2.1.ckpt_signalled) =
      some true := by
  refine ⟨by decide, rfl, ?_, ?_, ?_⟩ <;> decide

/-! ## Teardown -/

/-- The running return value is nonzero after `WT_TRET` exactly when it was
nonzero before or the step failed. -/
theorem WT_TRET_ne_zero (ret a : Int) : WT_TRET ret a ≠ 0 ↔ ret ≠ 0 ∨ a ≠ 0 := by
  unfold WT_TRET
  split_ifs with h
  · constructor
    · intro _
      exact Or.inr h.1
    · intro _
      exact h.1
  · constructor
    · intro h1
      exact Or.inl h1
    · intro h1
      rcases h1 with h1 | h1
      · exact h1
      · by_contra h2
        exact h ⟨h1, Or.inr (Or.inl h2)⟩

/-- An error kept by `WT_TRET` is replaced by a later one when it is
`WT_DUPLICATE_KEY`: with the signal returning -31801 and the join returning 6,
`__wt_checkpoint_server_destroy` returns 6. -/
theorem destroy_duplicate_key_replaced :
    (__wt_checkpoint_server_destroy
      ⟨fun _ => -31801, fun _ => 6, fun _ => 0, fun _ => 0⟩ conn_running).1 = 6 := by
  decide

/-- The connection `__wt_checkpoint_server_destroy` leaves: the one it was given
with the enabled flag cleared and the handle fields emptied. -/
theorem destroy_conn (ext : DestroyExt) (conn : WT_CONNECTION_IMPL) :
    (__wt_checkpoint_server_destroy ext conn).2.1 =
      { conn with
        server_checkpoint := false
        ckpt_session := none
        ckpt_tid_set := false
        ckpt_cond := none
        ckpt_config := none
        ckpt_usecs := 0 } := by
  unfold __wt_checkpoint_server_destroy
  simp only []
  split_ifs <;> rfl

/-- The return value and the calls of `__wt_checkpoint_server_destroy`. -/
theorem destroy_ret_trace (ext : DestroyExt) (conn : WT_CONNECTION_IMPL) :
    ((__wt_checkpoint_server_destroy ext conn).1 ≠ 0 ↔
      ((conn.ckpt_tid_set = true ∧
          (ext.cond_signal conn.ckpt_cond ≠ 0 ∨ ext.thread_join conn.ckpt_tid ≠ 0)) ∨
        __wt_cond_destroy ext conn.ckpt_cond ≠ 0 ∨
        ∃ s, conn.ckpt_session = some s ∧ ext.session_close s ≠ 0)) ∧
    (__wt_checkpoint_server_destroy ext conn).2.2.map Prod.fst =
      (if conn.ckpt_tid_set = true then
          [Call.cond_signal conn.ckpt_cond, Call.thread_join conn.ckpt_tid]
        else []) ++
      [Call.cond_destroy conn.ckpt_cond, Call.free conn.ckpt_config] ++
      (match conn.ckpt_session with
        | some s => [Call.session_close s]
        | none => []) := by
  unfold __wt_checkpoint_server_destroy
  cases hs : conn.ckpt_session with
  | none =>
    by_cases ht : conn.ckpt_tid_set = true
    · simp [hs, ht, WT_TRET_ne_zero]
    · simp [hs, ht, WT_TRET_ne_zero]
  | some s =>
    by_cases ht : conn.ckpt_tid_set = true
    · simp [hs, ht, WT_TRET_ne_zero, or_assoc]
    · simp [hs, ht, WT_TRET_ne_zero]

/-- C6: whatever the teardown steps return, `__wt_checkpoint_server_destroy`
ends with the checkpoint-enabled flag cleared, `ckpt_session`, `ckpt_cond` and
`ckpt_config` `NULL`, `ckpt_tid_set` false and `ckpt_usecs` 0; every step due is
called (signal and join when the thread is set, the condition destroy, the free of
the name, the session close when there is a session), and the return value is
nonzero exactly when one of the steps called returned nonzero. -/
theorem destroy_resets_and_accumulates (ext : DestroyExt) (conn : WT_CONNECTION_IMPL) :
    (__wt_checkpoint_server_destroy ext conn).2.1.server_checkpoint = false ∧
    (__wt_checkpoint_server_destroy ext conn).2.1.ckpt_session = none ∧
    (__wt_checkpoint_server_destroy ext conn).2.1.ckpt_tid_set = false ∧
    (__wt_checkpoint_server_destroy ext conn).2.1.ckpt_cond = none ∧
    (__wt_checkpoint_server_destroy ext conn).2.1.ckpt_config = none ∧
    (__wt_checkpoint_server_destroy ext conn).2.1.ckpt_usecs = 0 ∧
    ((__wt_checkpoint_server_destroy ext conn).1 ≠ 0 ↔
      ((conn.ckpt_tid_set = true ∧
          (ext.cond_signal conn.ckpt_cond ≠ 0 ∨ ext.thread_join conn.ckpt_tid ≠ 0)) ∨
        __wt_cond_destroy ext conn.ckpt_cond ≠ 0 ∨
        ∃ s, conn.ckpt_session = some s ∧ ext.session_close s ≠ 0)) ∧
    (__wt_checkpoint_server_destroy ext conn).2.2.map Prod.fst =
      (if conn.ckpt_tid_set = true then
          [Call.cond_signal conn.ckpt_cond, Call.thread_join conn.ckpt_tid]
        else []) ++
      [Call.cond_destroy conn.ckpt_cond, Call.free conn.ckpt_config] ++
      (match conn.ckpt_session with
        | some s => [Call.session_close s]
        | none => []) := by
  have h := destroy_ret_trace ext conn
  rw [destroy_conn]
  exact ⟨rfl, rfl, rfl, rfl, rfl, rfl, h.1, h.2⟩

/-- C4: a second call of `__wt_checkpoint_server_destroy` right after a first one
returns 0 and leaves the connection exactly as the first call left it; the only
calls it makes are the condition destroy and the free, both on `NULL`: no signal,
no thread join, no session close. -/
theorem destroy_twice (ext1 ext2 : DestroyExt) (conn : WT_CONNECTION_IMPL) :
    (__wt_checkpoint_server_destroy ext2 (__wt_checkpoint_server_destroy ext1 conn).2.1).1 = 0 ∧
    (__wt_checkpoint_server_destroy ext2 (__wt_checkpoint_server_destroy ext1 conn).2.1).2.1 =
      (__wt_checkpoint_server_destroy ext1 conn).2.1 ∧
    (__wt_checkpoint_server_destroy ext2
        (__wt_checkpoint_server_destroy ext1 conn).2.1).2.2.map Prod.fst =
      [Call.cond_destroy none, Call.free none] := by
  have h := destroy_ret_trace ext2 (__wt_checkpoint_server_destroy ext1 conn).2.1
  have hc := destroy_conn ext2 (__wt_checkpoint_server_destroy ext1 conn).2.1
  rw [destroy_conn ext1 conn] at h hc ⊢
  refine ⟨?_, ?_, ?_⟩
  · by_contra h0
    have h1 := h.1.mp h0
    simp [__wt_cond_destroy] at h1
  · rw [hc]
  · rw [h.2]
    rfl

/-! ## Startup -/

/-- C5, as stated, fails: from a connection with no handle, when the session opens
(handle 7) and the allocation of the condition variable fails with 12,
`__ckpt_server_start` returns 12 with `ckpt_session` installed, not `NULL`, and
the checkpoint-enabled flag set. -/
theorem ckpt_server_start_keeps_session_on_cond_failure :
    conn_idle.ckpt_session = none ∧ conn_idle.ckpt_cond = none ∧
    conn_idle.ckpt_tid_set = false ∧
    (__ckpt_server_start ⟨⟨0, 7⟩, ⟨12, 0⟩, ⟨0, 9⟩⟩ conn_idle).1 = 12 ∧
    (__ckpt_server_start ⟨⟨0, 7⟩, ⟨12, 0⟩, ⟨0, 9⟩⟩ conn_idle).2.1.ckpt_session = some 7 ∧
    (__ckpt_server_start ⟨⟨0, 7⟩, ⟨12, 0⟩, ⟨0, 9⟩⟩ conn_idle).2.1.ckpt_session ≠ none ∧
    (__ckpt_server_start ⟨⟨0, 7⟩, ⟨12, 0⟩, ⟨0, 9⟩⟩ conn_idle).2.1.server_checkpoint = true := by
  refine ⟨rfl, rfl, rfl, ?_, ?_, ?_, ?_⟩ <;> decide

/-- C5, amended: from a connection with no session handle, `__ckpt_server_start`
returns the error of the first step that fails and stops there: it makes no call
after the failing one, keeps what the earlier steps installed and leaves the
checkpoint-enabled flag set. If opening the session fails, that is the only call
and only the flag has changed; if allocating the condition variable fails, the
calls are the session open and the allocation, and `ckpt_session` holds the new
session; if creating the thread fails, the calls are those two and the thread
creation, and `ckpt_session` and `ckpt_cond` hold the new session and condition
variable. In all three cases every other field, `ckpt_tid` and `ckpt_tid_set`
among them, is as it was. -/
theorem ckpt_server_start_failure (ext : StartExt) (conn : WT_CONNECTION_IMPL)
    (hs : conn.ckpt_session = none) :
    (ext.open_internal_session.ret ≠ 0 →
      __ckpt_server_start ext conn =
        (ext.open_internal_session.ret,
          { conn with server_checkpoint := true },
          [(Call.open_internal_session, { conn with server_checkpoint := true })])) ∧
    (ext.open_internal_session.ret = 0 → ext.cond_alloc.ret ≠ 0 →
      __ckpt_server_start ext conn =
        (ext.cond_alloc.ret,
          { conn with
            server_checkpoint := true
            ckpt_session := some ext.open_internal_session.handle },
          [(Call.open_internal_session, { conn with server_checkpoint := true }),
            (Call.cond_alloc,
              { conn with
                server_checkpoint := true
                ckpt_session := some ext.open_internal_session.handle })])) ∧
    (ext.open_internal_session.ret = 0 → ext.cond_alloc.ret = 0 →
      ext.thread_create.ret ≠ 0 →
      __ckpt_server_start ext conn =
        (ext.thread_create.ret,
          { conn with
            server_checkpoint := true
            ckpt_session := some ext.open_internal_session.handle
            ckpt_cond := some ext.cond_alloc.handle },
          [(Call.open_internal_session, { conn with server_checkpoint := true }),
            (Call.cond_alloc,
              { conn with
                server_checkpoint := true
                ckpt_session := some ext.open_internal_session.handle }),
            (Call.thread_create ext.open_internal_session.handle,
              { conn with
                server_checkpoint := true
                ckpt_session := some ext.open_internal_session.handle
                ckpt_cond := some ext.cond_alloc.handle })])) := by
  unfold __ckpt_server_start
  refine ⟨?_, ?_, ?_⟩
  · intro h1
    simp [hs, h1]
  · intro h1 h2
    simp [hs, h1, h2]
  · intro h1 h2 h3
    simp [hs, h1, h2, h3]

/-- C5, amended, at a failing thread creation: the error 11 is returned after the
three calls, session 7 and condition variable 8 stay installed, and `ckpt_tid_set`
is still false. -/
theorem ckpt_server_start_failure_witness :
    __ckpt_server_start ⟨⟨0, 7⟩, ⟨0, 8⟩, ⟨11, 0⟩⟩ conn_idle =
      (11,
        { conn_idle with
          server_checkpoint := true
          ckpt_session := some 7
          ckpt_cond := some 8 },
        [(Call.open_internal_session, { conn_idle with server_checkpoint := true }),
          (Call.cond_alloc,
            { conn_idle with
              server_checkpoint := true
              ckpt_session := some 7 }),
          (Call.thread_create 7,
            { conn_idle with
              server_checkpoint := true
              ckpt_session := some 7
              ckpt_cond := some 8 })]) :=
  (ckpt_server_start_failure ⟨⟨0, 7⟩, ⟨0, 8⟩, ⟨11, 0⟩⟩ conn_idle rfl).2.2 rfl rfl (by decide)

/-! ## The worker loop -/

/-- The other threads never change the log-size threshold. -/
theorem interfere_logsize (i : Interference) (conn : WT_CONNECTION_IMPL) :
    (interfere i conn).ckpt_logsize = conn.ckpt_logsize := rfl

/-- A flag the other threads have cleared stays cleared. -/
theorem interfere_guard (i : Interference) (conn : WT_CONNECTION_IMPL)
    (h : (conn.server_run && conn.server_checkpoint) = false) :
    ((interfere i conn).server_run && (interfere i conn).server_checkpoint) = false := by
  unfold interfere
  cases hr : conn.server_run <;> cases hc : conn.server_checkpoint <;>
    simp_all

/-- A pass of the loop body whose main wait succeeds, case by case. -/
theorem ckpt_server_body_eq (o : Iteration) (conn : WT_CONNECTION_IMPL)
    (hw : o.wait_ret = 0) :
    ckpt_server_body o conn =
      if o.checkpoint_ret ≠ 0 then
        (o.checkpoint_ret, interfere o.checkpoint_env (interfere o.wait_env conn),
          [(Call.cond_wait conn.ckpt_cond conn.ckpt_usecs, conn),
            (Call.checkpoint conn.ckpt_config, interfere o.wait_env conn)])
      else if conn.ckpt_logsize ≠ 0 then
        (o.drain_ret,
          interfere o.drain_env (interfere o.store_env
            { interfere o.reset_env (__wt_log_written_reset
                (interfere o.checkpoint_env (interfere o.wait_env conn))) with
              ckpt_signalled := false }),
          [(Call.cond_wait conn.ckpt_cond conn.ckpt_usecs, conn),
            (Call.checkpoint conn.ckpt_config, interfere o.wait_env conn),
            (Call.log_written_reset, interfere o.checkpoint_env (interfere o.wait_env conn)),
            (Call.cond_wait conn.ckpt_cond 1,
              interfere o.store_env
                { interfere o.reset_env (__wt_log_written_reset
                    (interfere o.checkpoint_env (interfere o.wait_env conn))) with
                  ckpt_signalled := false })])
      else
        (0, interfere o.checkpoint_env (interfere o.wait_env conn),
          [(Call.cond_wait conn.ckpt_cond conn.ckpt_usecs, conn),
            (Call.checkpoint conn.ckpt_config, interfere o.wait_env conn)]) := by
  unfold ckpt_server_body
  simp only [hw, ne_eq, not_true_eq_false, if_false, interfere_logsize]
  split_ifs <;> rfl

/-- A pass of the loop body leaves the log-size threshold as it was. -/
theorem ckpt_server_body_logsize (o : Iteration) (conn : WT_CONNECTION_IMPL) :
    (ckpt_server_body o conn).2.1.ckpt_logsize = conn.ckpt_logsize := by
  unfold ckpt_server_body
  simp only []
  split_ifs <;> rfl

/-- The loop guard, once false at the wake-up from the main wait, is false at the
end of the pass. -/
theorem ckpt_server_body_guard (o : Iteration) (conn : WT_CONNECTION_IMPL)
    (h : ((interfere o.wait_env conn).server_run &&
      (interfere o.wait_env conn).server_checkpoint) = false) :
    ((ckpt_server_body o conn).2.1.server_run &&
      (ckpt_server_body o conn).2.1.server_checkpoint) = false := by
  unfold ckpt_server_body
  simp only []
  split_ifs
  · exact h
  · exact interfere_guard _ _ h
  · exact interfere_guard o.drain_env _ (interfere_guard o.store_env _
      (interfere_guard o.reset_env _ (interfere_guard o.checkpoint_env _ h)))
  · exact interfere_guard _ _ h

/-- A run of the worker that starts with the guard false: the thread returns at
once. -/
theorem ckpt_server_guard_false (os : List Iteration) (conn : WT_CONNECTION_IMPL)
    (h : (conn.server_run && conn.server_checkpoint) = false) :
    __ckpt_server os conn = (WorkerExit.returned, conn, []) := by
  unfold __ckpt_server
  simp [h]

/-- A run of the worker that starts with the guard true: one pass of the loop
body, then a panic if the pass failed, the rest of the run otherwise. -/
theorem ckpt_server_unfold (o : Iteration) (os : List Iteration) (conn : WT_CONNECTION_IMPL)
    (hguard : (conn.server_run && conn.server_checkpoint) = true) :
    __ckpt_server (o :: os) conn =
      if (ckpt_server_body o conn).1 ≠ 0 then
        (WorkerExit.panicked (ckpt_server_body o conn).1, (ckpt_server_body o conn).2.1,
          (ckpt_server_body o conn).2.2 ++
            [(Call.panic_msg (ckpt_server_body o conn).1, (ckpt_server_body o conn).2.1)])
      else
        ((__ckpt_server os (ckpt_server_body o conn).2.1).1,
          (__ckpt_server os (ckpt_server_body o conn).2.1).2.1,
          (ckpt_server_body o conn).2.2 ++
            (__ckpt_server os (ckpt_server_body o conn).2.1).2.2) := by
  rw [__ckpt_server]
  simp only [hguard, Bool.true_eq_false, if_false]

/-- The checkpoint calls and the resets of one pass of the loop body. -/
theorem ckpt_server_body_counts (o : Iteration) (conn : WT_CONNECTION_IMPL) :
    (conn.ckpt_logsize = 0 → resets (ckpt_server_body o conn).2.2 = []) ∧
    (resets (ckpt_server_body o conn).2.2).length ≤
      (checkpoints (ckpt_server_body o conn).2.2).length ∧
    (checkpoints (ckpt_server_body o conn).2.2).length ≤
      (resets (ckpt_server_body o conn).2.2).length + 1 ∧
    (conn.ckpt_logsize ≠ 0 → (ckpt_server_body o conn).1 = 0 →
      (checkpoints (ckpt_server_body o conn).2.2).length =
        (resets (ckpt_server_body o conn).2.2).length) := by
  unfold ckpt_server_body
  simp only [interfere_logsize]
  split_ifs with h1 h2 h3 <;> simp_all [resets, checkpoints, List.filter]

/-- Over a whole run of the worker: with a zero threshold the log counter is never
reset; with a nonzero one every checkpoint call, but for a last one that failed,
is followed by a reset. -/
theorem ckpt_server_counts (os : List Iteration) (conn : WT_CONNECTION_IMPL) :
    (conn.ckpt_logsize = 0 → resets (__ckpt_server os conn).2.2 = []) ∧
    (conn.ckpt_logsize ≠ 0 →
      (resets (__ckpt_server os conn).2.2).length ≤
        (checkpoints (__ckpt_server os conn).2.2).length ∧
      (checkpoints (__ckpt_server os conn).2.2).length ≤
        (resets (__ckpt_server os conn).2.2).length + 1 ∧
      ((__ckpt_server os conn).1 = WorkerExit.returned ∨
          (__ckpt_server os conn).1 = WorkerExit.running →
        (checkpoints (__ckpt_server os conn).2.2).length =
          (resets (__ckpt_server os conn).2.2).length)) := by
  induction os generalizing conn with
  | nil =>
    unfold __ckpt_server
    split_ifs <;> simp [resets, checkpoints]
  | cons o os ih =>
    by_cases hguard : (conn.server_run && conn.server_checkpoint) = true
    · rw [ckpt_server_unfold o os conn hguard]
      have hb := ckpt_server_body_counts o conn
      have hl := ckpt_server_body_logsize o conn
      have hi := ih (ckpt_server_body o conn).2.1
      rw [hl] at hi
      by_cases hret : (ckpt_server_body o conn).1 = 0
      · simp only [hret, ne_eq, not_true_eq_false, if_false]
        constructor
        · intro h0
          simp only [resets, List.filter_append] at hb hi ⊢
          rw [hb.1 h0, hi.1 h0]
          rfl
        · intro h0
          have h1 := hi.2 h0
          have h2 := hb.2.2.2 h0 hret
          simp only [resets, checkpoints, List.filter_append, List.length_append]
            at hb hi h1 h2 ⊢
          refine ⟨by omega, by omega, fun he => ?_⟩
          have h3 := h1.2.2 he
          omega
      · simp only [hret, ne_eq, not_false_eq_true, if_true]
        constructor
        · intro h0
          simp only [resets, List.filter_append] at hb ⊢
          rw [hb.1 h0]
          rfl
        · intro _
          simp only [resets, checkpoints, List.filter_append, List.length_append,
            List.filter, List.length_nil, add_zero] at hb ⊢
          refine ⟨hb.2.1, hb.2.2.1, fun he => ?_⟩
          rcases he with he | he <;> exact absurd he (by simp)
    · have hg : (conn.server_run && conn.server_checkpoint) = false := by
        simpa using hguard
      rw [ckpt_server_guard_false _ _ hg]
      simp [resets, checkpoints]

/-- C7: in a pass of the worker loop whose main wait and checkpoint operation
succeed, whatever woke the worker and whatever the other threads do meanwhile:
with a nonzero `ckpt_logsize` the worker, after the checkpoint and before its next
wait, calls the log-counter reset, which zeroes the counter, and then stores
false in `ckpt_signalled`; its next call is the wait of line 160, entered with
`ckpt_signalled` true only if another thread set it after that store and with a
log counter holding only the bytes written after the reset; the pass returns
what that wait returns. With a zero `ckpt_logsize` the pass makes no call after
the checkpoint and leaves the connection as the checkpoint left it. Every pass of
a run of `__ckpt_server` is such a pass: a run that finds the guard true is one
pass followed by a panic, if the pass failed, or by the run from the connection
the pass left; and over a whole run with a nonzero `ckpt_logsize` every
checkpoint call, but for a last one that failed, is followed by a reset, while
with a zero `ckpt_logsize` no reset is ever called. -/
theorem ckpt_server_body_resets (o : Iteration) (os : List Iteration)
    (conn : WT_CONNECTION_IMPL)
    (hw : o.wait_ret = 0) (hc : o.checkpoint_ret = 0) :
    (conn.ckpt_logsize ≠ 0 →
      ∃ c1 c2 c3 c4 c5 : WT_CONNECTION_IMPL,
        c1 = interfere o.wait_env conn ∧
        c2 = interfere o.checkpoint_env c1 ∧
        c3 = interfere o.reset_env (__wt_log_written_reset c2) ∧
        c4 = { c3 with ckpt_signalled := false } ∧
        c5 = interfere o.store_env c4 ∧
        ckpt_server_body o conn =
          (o.drain_ret, interfere o.drain_env c5,
            [(Call.cond_wait conn.ckpt_cond conn.ckpt_usecs, conn),
              (Call.checkpoint conn.ckpt_config, c1),
              (Call.log_written_reset, c2),
              (Call.cond_wait conn.ckpt_cond 1, c5)]) ∧
        (__wt_log_written_reset c2).log_written = 0 ∧
        c4.ckpt_signalled = false ∧
        c5.ckpt_signalled = o.store_env.set_signalled ∧
        c5.log_written = (o.reset_env.log_bytes : Int) + (o.store_env.log_bytes : Int)) ∧
    (conn.ckpt_logsize = 0 →
      ckpt_server_body o conn =
        (0, interfere o.checkpoint_env (interfere o.wait_env conn),
          [(Call.cond_wait conn.ckpt_cond conn.ckpt_usecs, conn),
            (Call.checkpoint conn.ckpt_config, interfere o.wait_env conn)])) ∧
    ((conn.server_run && conn.server_checkpoint) = true →
      __ckpt_server (o :: os) conn =
        if (ckpt_server_body o conn).1 ≠ 0 then
          (WorkerExit.panicked (ckpt_server_body o conn).1, (ckpt_server_body o conn).2.1,
            (ckpt_server_body o conn).2.2 ++
              [(Call.panic_msg (ckpt_server_body o conn).1, (ckpt_server_body o conn).2.1)])
        else
          ((__ckpt_server os (ckpt_server_body o conn).2.1).1,
            (__ckpt_server os (ckpt_server_body o conn).2.1).2.1,
            (ckpt_server_body o conn).2.2 ++
              (__ckpt_server os (ckpt_server_body o conn).2.1).2.2)) ∧
    (∀ (ps : List Iteration) (c : WT_CONNECTION_IMPL),
      (c.ckpt_logsize = 0 → resets (__ckpt_server ps c).2.2 = []) ∧
      (c.ckpt_logsize ≠ 0 →
        (resets (__ckpt_server ps c).2.2).length ≤
          (checkpoints (__ckpt_server ps c).2.2).length ∧
        (checkpoints (__ckpt_server ps c).2.2).length ≤
          (resets (__ckpt_server ps c).2.2).length + 1 ∧
        ((__ckpt_server ps c).1 = WorkerExit.returned ∨
            (__ckpt_server ps c).1 = WorkerExit.running →
          (checkpoints (__ckpt_server ps c).2.2).length =
            (resets (__ckpt_server ps c).2.2).length))) := by
  have hb := ckpt_server_body_eq o conn hw
  simp only [hc, ne_eq, not_true_eq_false, if_false] at hb
  refine ⟨?_, ?_, ckpt_server_unfold o os conn, fun ps c => ckpt_server_counts ps c⟩
  · intro h
    rw [if_pos h] at hb
    refine ⟨_, _, _, _, _, rfl, rfl, rfl, rfl, rfl, hb, rfl, rfl, ?_, ?_⟩
    · simp [interfere]
    · simp [interfere, __wt_log_written_reset]
  · intro h
    have h1 : ¬ ¬ conn.ckpt_logsize = 0 := fun hn => hn h
    rw [if_neg h1] at hb
    exact hb

/-- C7 at a pass woken by a growth signal, threshold 100, with 30 bytes logged
between the reset and the store of line 152 and a second growth signal, after 5
more bytes, between that store and the wait of line 160. -/
theorem ckpt_server_body_resets_witness :
    ∃ c1 c2 c3 c4 c5 : WT_CONNECTION_IMPL,
      c1 = interfere pass_signalled.wait_env conn_running ∧
      c2 = interfere pass_signalled.checkpoint_env c1 ∧
      c3 = interfere pass_signalled.reset_env (__wt_log_written_reset c2) ∧
      c4 = { c3 with ckpt_signalled := false } ∧
      c5 = interfere pass_signalled.store_env c4 ∧
      ckpt_server_body pass_signalled conn_running =
        (pass_signalled.drain_ret, interfere pass_signalled.drain_env c5,
          [(Call.cond_wait conn_running.ckpt_cond conn_running.ckpt_usecs, conn_running),
            (Call.checkpoint conn_running.ckpt_config, c1),
            (Call.log_written_reset, c2),
            (Call.cond_wait conn_running.ckpt_cond 1, c5)]) ∧
      (__wt_log_written_reset c2).log_written = 0 ∧
      c4.ckpt_signalled = false ∧
      c5.ckpt_signalled = pass_signalled.store_env.set_signalled ∧
      c5.log_written =
        (pass_signalled.reset_env.log_bytes : Int) + (pass_signalled.store_env.log_bytes : Int) :=
  (ckpt_server_body_resets pass_signalled [] conn_running rfl rfl).1 (by decide)

/-- C10, as stated, fails: the worker is in its main wait with both flags set;
the checkpoint-enabled flag is cleared during the wait; on waking the worker
invokes the checkpoint operation all the same, with the flag already cleared,
and only then leaves the loop. -/
theorem ckpt_server_checkpoints_after_flag_cleared :
    conn_running.server_run = true ∧ conn_running.server_checkpoint = true ∧
    (interfere pass_stopped.wait_env conn_running).server_checkpoint = false ∧
    checkpoints (__ckpt_server [pass_stopped] conn_running).2.2 =
      [(Call.checkpoint none, interfere pass_stopped.wait_env conn_running)] ∧
    (__ckpt_server [pass_stopped] conn_running).1 = WorkerExit.returned := by
  refine ⟨rfl, rfl, rfl, ?_, ?_⟩ <;> decide

/-- C10, amended: the worker tests the loop guard only at the top of a pass,
before the main wait, where a cleared flag makes it return without any call. If
the run flag or the checkpoint-enabled flag is cleared while the worker is in the
main wait and the wait succeeds, the guard is false at the wake-up and the worker
still invokes the checkpoint operation once, with the flag cleared; that pass is
its last. If the checkpoint fails the worker reports a panic with the
checkpoint's error; if it succeeds and `ckpt_logsize` is zero the worker returns;
if it succeeds and `ckpt_logsize` is nonzero the worker resets, makes the wait of
line 160, and reports a panic with that wait's error if it failed, and returns
otherwise. In every case there is no further main wait and no further
checkpoint. -/
theorem ckpt_server_guard_only_at_top (o : Iteration) (os : List Iteration)
    (conn : WT_CONNECTION_IMPL)
    (hrun : conn.server_run = true) (hen : conn.server_checkpoint = true)
    (hw : o.wait_ret = 0)
    (hclr : o.wait_env.clear_run = true ∨ o.wait_env.clear_checkpoint = true) :
    ∃ c1 c2 c5 c6 : WT_CONNECTION_IMPL,
      c1 = interfere o.wait_env conn ∧
      c2 = interfere o.checkpoint_env c1 ∧
      c5 = interfere o.store_env
        { interfere o.reset_env (__wt_log_written_reset c2) with ckpt_signalled := false } ∧
      c6 = interfere o.drain_env c5 ∧
      (c1.server_run && c1.server_checkpoint) = false ∧
      (o.checkpoint_ret ≠ 0 →
        __ckpt_server (o :: os) conn =
          (WorkerExit.panicked o.checkpoint_ret, c2,
            [(Call.cond_wait conn.ckpt_cond conn.ckpt_usecs, conn),
              (Call.checkpoint conn.ckpt_config, c1),
              (Call.panic_msg o.checkpoint_ret, c2)])) ∧
      (o.checkpoint_ret = 0 → conn.ckpt_logsize = 0 →
        __ckpt_server (o :: os) conn =
          (WorkerExit.returned, c2,
            [(Call.cond_wait conn.ckpt_cond conn.ckpt_usecs, conn),
              (Call.checkpoint conn.ckpt_config, c1)])) ∧
      (o.checkpoint_ret = 0 → conn.ckpt_logsize ≠ 0 → o.drain_ret ≠ 0 →
        __ckpt_server (o :: os) conn =
          (WorkerExit.panicked o.drain_ret, c6,
            [(Call.cond_wait conn.ckpt_cond conn.ckpt_usecs, conn),
              (Call.checkpoint conn.ckpt_config, c1),
              (Call.log_written_reset, c2),
              (Call.cond_wait conn.ckpt_cond 1, c5),
              (Call.panic_msg o.drain_ret, c6)])) ∧
      (o.checkpoint_ret = 0 → conn.ckpt_logsize ≠ 0 → o.drain_ret = 0 →
        __ckpt_server (o :: os) conn =
          (WorkerExit.returned, c6,
            [(Call.cond_wait conn.ckpt_cond conn.ckpt_usecs, conn),
              (Call.checkpoint conn.ckpt_config, c1),
              (Call.log_written_reset, c2),
              (Call.cond_wait conn.ckpt_cond 1, c5)])) ∧
      checkpoints (__ckpt_server (o :: os) conn).2.2 =
        [(Call.checkpoint conn.ckpt_config, c1)] ∧
      (∀ c : WT_CONNECTION_IMPL, (c.server_run && c.server_checkpoint) = false →
        __ckpt_server (o :: os) c = (WorkerExit.returned, c, [])) := by
  have hwake : ((interfere o.wait_env conn).server_run &&
      (interfere o.wait_env conn).server_checkpoint) = false := by
    unfold interfere
    rcases hclr with h | h <;> simp [h]
  have hend := ckpt_server_body_guard o conn hwake
  have hguard : (conn.server_run && conn.server_checkpoint) = true := by
    simp [hrun, hen]
  have hu := ckpt_server_unfold o os conn hguard
  rw [ckpt_server_guard_false os _ hend] at hu
  have hb := ckpt_server_body_eq o conn hw
  have e1 : o.checkpoint_ret ≠ 0 →
      __ckpt_server (o :: os) conn =
        (WorkerExit.panicked o.checkpoint_ret,
          interfere o.checkpoint_env (interfere o.wait_env conn),
          [(Call.cond_wait conn.ckpt_cond conn.ckpt_usecs, conn),
            (Call.checkpoint conn.ckpt_config, interfere o.wait_env conn),
            (Call.panic_msg o.checkpoint_ret,
              interfere o.checkpoint_env (interfere o.wait_env conn))]) := by
    intro h1
    rw [if_pos h1] at hb
    rw [hu, hb]
    simp [h1]
  have e2 : o.checkpoint_ret = 0 → conn.ckpt_logsize = 0 →
      __ckpt_server (o :: os) conn =
        (WorkerExit.returned, interfere o.checkpoint_env (interfere o.wait_env conn),
          [(Call.cond_wait conn.ckpt_cond conn.ckpt_usecs, conn),
            (Call.checkpoint conn.ckpt_config, interfere o.wait_env conn)]) := by
    intro h1 h2
    simp only [h1, h2, ne_eq, not_true_eq_false, if_false] at hb
    rw [hu, hb]
    simp
  have e3 : o.checkpoint_ret = 0 → conn.ckpt_logsize ≠ 0 → o.drain_ret ≠ 0 →
      __ckpt_server (o :: os) conn =
        (WorkerExit.panicked o.drain_ret,
          interfere o.drain_env (interfere o.store_env
            { interfere o.reset_env (__wt_log_written_reset
                (interfere o.checkpoint_env (interfere o.wait_env conn))) with
              ckpt_signalled := false }),
          [(Call.cond_wait conn.ckpt_cond conn.ckpt_usecs, conn),
            (Call.checkpoint conn.ckpt_config, interfere o.wait_env conn),
            (Call.log_written_reset, interfere o.checkpoint_env (interfere o.wait_env conn)),
            (Call.cond_wait conn.ckpt_cond 1,
              interfere o.store_env
                { interfere o.reset_env (__wt_log_written_reset
                    (interfere o.checkpoint_env (interfere o.wait_env conn))) with
                  ckpt_signalled := false }),
            (Call.panic_msg o.drain_ret,
              interfere o.drain_env (interfere o.store_env
                { interfere o.reset_env (__wt_log_written_reset
                    (interfere o.checkpoint_env (interfere o.wait_env conn))) with
                  ckpt_signalled := false }))]) := by
    intro h1 h2 h3
    simp only [h1, ne_eq, not_true_eq_false, if_false, h2, not_false_eq_true, if_true] at hb
    rw [hu, hb]
    simp [h3]
  have e4 : o.checkpoint_ret = 0 → conn.ckpt_logsize ≠ 0 → o.drain_ret = 0 →
      __ckpt_server (o :: os) conn =
        (WorkerExit.returned,
          interfere o.drain_env (interfere o.store_env
            { interfere o.reset_env (__wt_log_written_reset
                (interfere o.checkpoint_env (interfere o.wait_env conn))) with
              ckpt_signalled := false }),
          [(Call.cond_wait conn.ckpt_cond conn.ckpt_usecs, conn),
            (Call.checkpoint conn.ckpt_config, interfere o.wait_env conn),
            (Call.log_written_reset, interfere o.checkpoint_env (interfere o.wait_env conn)),
            (Call.cond_wait conn.ckpt_cond 1,
              interfere o.store_env
                { interfere o.reset_env (__wt_log_written_reset
                    (interfere o.checkpoint_env (interfere o.wait_env conn))) with
                  ckpt_signalled := false })]) := by
    intro h1 h2 h3
    simp only [h1, ne_eq, not_true_eq_false, if_false, h2, not_false_eq_true, if_true] at hb
    rw [hu, hb]
    simp [h3]
  refine ⟨_, _, _, _, rfl, rfl, rfl, rfl, hwake, e1, e2, e3, e4, ?_,
    fun c hc => ckpt_server_guard_false _ c hc⟩
  by_cases h1 : o.checkpoint_ret = 0
  · by_cases h2 : conn.ckpt_logsize = 0
    · rw [e2 h1 h2]
      simp [checkpoints, List.filter]
    · by_cases h3 : o.drain_ret = 0
      · rw [e4 h1 h2 h3]
        simp [checkpoints, List.filter]
      · rw [e3 h1 h2 h3]
        simp [checkpoints, List.filter]
  · rw [e1 h1]
    simp [checkpoints, List.filter]

/-- C10, amended, at a pass during whose main wait the checkpoint-enabled flag
is cleared and whose wait of line 160 fails with 5: one checkpoint is invoked,
with the flag cleared, and the worker reports a panic with error 5. -/
theorem ckpt_server_guard_only_at_top_witness :
    __ckpt_server [pass_stopped_drain_fails, pass_signalled] conn_running =
      (WorkerExit.panicked 5,
        { conn_running with server_checkpoint := false, log_written := 0 },
        [(Call.cond_wait (some 8) 10000000, conn_running),
          (Call.checkpoint none, { conn_running with server_checkpoint := false }),
          (Call.log_written_reset, { conn_running with server_checkpoint := false }),
          (Call.cond_wait (some 8) 1,
            { conn_running with server_checkpoint := false, log_written := 0 }),
          (Call.panic_msg 5,
            { conn_running with server_checkpoint := false, log_written := 0 })]) := by
  obtain ⟨c1, c2, c5, c6, h1, h2, h5, h6, _, _, _, e3, _, _, _⟩ :=
    ckpt_server_guard_only_at_top pass_stopped_drain_fails [pass_signalled] conn_running
      rfl rfl rfl (Or.inr rfl)
  subst h1 h2 h5 h6
  exact e3 rfl (by decide) (by decide)

/-! ## Callers of the growth gate, interleaved and in sequence -/

/-- A caller that runs its three statements with no other caller in between does
what `__wt_checkpoint_signal` does as a whole. -/
theorem signal_step_alone (signal_ret : Int) (conn : WT_CONNECTION_IMPL) (logsize : Int) :
    ∃ ret,
      (run_schedule signal_ret [0, 0, 0]
        (conn, [⟨logsize, SignalPc.test⟩], [])).2.1 = [⟨logsize, SignalPc.done ret⟩] ∧
      __wt_checkpoint_signal false signal_ret conn logsize =
        some (ret,
          (run_schedule signal_ret [0, 0, 0] (conn, [⟨logsize, SignalPc.test⟩], [])).1,
          (run_schedule signal_ret [0, 0, 0] (conn, [⟨logsize, SignalPc.test⟩], [])).2.2) := by
  by_cases h : logsize ≥ conn.ckpt_logsize ∧ conn.ckpt_signalled = false
  · by_cases hs : signal_ret = 0
    · refine ⟨0, ?_, ?_⟩ <;>
        simp [run_schedule, signal_step, __wt_checkpoint_signal, h.1, h.2, hs]
    · refine ⟨signal_ret, ?_, ?_⟩ <;>
        simp [run_schedule, signal_step, __wt_checkpoint_signal, h.1, h.2, hs]
  · have h1 : ¬ (conn.ckpt_logsize ≤ logsize ∧ conn.ckpt_signalled = false) := h
    refine ⟨0, ?_, ?_⟩ <;>
      simp only [run_schedule, signal_step, __wt_checkpoint_signal, ge_iff_le, h1, if_false,
        List.get?, List.set, List.nil_append, List.append_nil, Bool.false_eq_true,
        false_and]

/-- What a call of `__wt_checkpoint_signal` returns when the threshold is nonzero
and the condition signal succeeds. -/
theorem checkpoint_signal_eq (diagnostic : Bool) (conn : WT_CONNECTION_IMPL) (logsize : Int)
    (hsize : conn.ckpt_logsize ≠ 0) :
    __wt_checkpoint_signal diagnostic 0 conn logsize =
      some (if logsize ≥ conn.ckpt_logsize ∧ conn.ckpt_signalled = false then
        (0, { conn with ckpt_signalled := true }, [(Call.cond_signal conn.ckpt_cond, conn)])
      else (0, conn, [])) := by
  unfold __wt_checkpoint_signal
  by_cases h : logsize ≥ conn.ckpt_logsize ∧ conn.ckpt_signalled = false
  · simp [hsize, h.1, h.2]
  · have h1 : ¬ (conn.ckpt_logsize ≤ logsize ∧ conn.ckpt_signalled = false) := h
    simp only [hsize, and_false, if_false, ge_iff_le, h1]

/-- C9, as stated, fails: two callers, each observing 150 bytes against a
threshold of 100, run their statements alternately. Both pass the test of line
288 before either reaches the store of line 290, and both call
`__wt_cond_signal`: two signals are delivered in one cycle. -/
theorem checkpoint_signal_race_two_signals :
    (signals (run_schedule 0 [0, 1, 0, 1, 0, 1]
      (conn_running, [⟨150, SignalPc.test⟩, ⟨150, SignalPc.test⟩], [])).2.2).length = 2 ∧
    (run_schedule 0 [0, 1]
      (conn_running, [⟨150, SignalPc.test⟩, ⟨150, SignalPc.test⟩], [])).2.1 =
      [⟨150, SignalPc.signal⟩, ⟨150, SignalPc.signal⟩] ∧
    (run_schedule 0 [0, 1, 0, 1, 0, 1]
      (conn_running, [⟨150, SignalPc.test⟩, ⟨150, SignalPc.test⟩], [])).2.1 =
      [⟨150, SignalPc.done 0⟩, ⟨150, SignalPc.done 0⟩] := by
  refine ⟨?_, ?_, ?_⟩ <;> decide

/-- C9, amended: when the calls of `__wt_checkpoint_signal` within one cycle are
made one after the other (each returns before the next starts), the threshold is
nonzero and the condition signal succeeds, every call returns and at most one
signal is delivered: exactly one when `ckpt_signalled` is false at the start and
some caller's byte count has reached the threshold, none otherwise. -/
theorem signal_calls_at_most_one (diagnostic : Bool) (obs : List Int)
    (conn : WT_CONNECTION_IMPL) (hsize : conn.ckpt_logsize ≠ 0) :
    ∃ c tr, signal_calls diagnostic 0 obs conn = some (c, tr) ∧
      (signals tr).length ≤ 1 ∧
      ((signals tr).length = 1 ↔
        (conn.ckpt_signalled = false ∧ ∃ x ∈ obs, x ≥ conn.ckpt_logsize)) := by
  induction obs generalizing conn with
  | nil => exact ⟨conn, [], rfl, by simp [signals], by simp [signals]⟩
  | cons x rest ih =>
    by_cases h : x ≥ conn.ckpt_logsize ∧ conn.ckpt_signalled = false
    · obtain ⟨c, tr, hrun, hle, hiff⟩ :=
        ih { conn with ckpt_signalled := true } hsize
      have hnone : (signals tr).length = 0 := by
        have hne : (signals tr).length ≠ 1 := by
          intro h1
          have h2 := (hiff.mp h1).1
          simp at h2
        omega
      refine ⟨c, [(Call.cond_signal conn.ckpt_cond, conn)] ++ tr, ?_, ?_, ?_⟩
      · simp only [signal_calls, checkpoint_signal_eq diagnostic conn x hsize, if_pos h, hrun]
      · simp only [signals, List.filter_append, List.length_append] at hnone ⊢
        rw [hnone]
        simp [List.filter]
      · simp only [signals, List.filter_append, List.length_append] at hnone ⊢
        rw [hnone]
        simp only [List.filter, List.length_cons, List.length_nil, zero_add, add_zero,
          true_iff]
        exact ⟨h.2, x, List.mem_cons_self _ _, h.1⟩
    · obtain ⟨c, tr, hrun, hle, hiff⟩ := ih conn hsize
      refine ⟨c, tr, ?_, hle, ?_⟩
      · simp only [signal_calls, checkpoint_signal_eq diagnostic conn x hsize, if_neg h, hrun,
          List.nil_append]
      · rw [hiff]
        constructor
        · rintro ⟨hs, y, hy, hge⟩
          exact ⟨hs, y, List.mem_cons_of_mem _ hy, hge⟩
        · rintro ⟨hs, y, hy, hge⟩
          refine ⟨hs, ?_⟩
          rcases List.mem_cons.mp hy with rfl | hy
          · exact absurd ⟨hge, hs⟩ h
          · exact ⟨y, hy, hge⟩

/-- C9, amended, at ten callers in sequence, each observing 2,000,000 bytes
against a threshold of 100: one signal. -/
theorem signal_calls_at_most_one_witness :
    ∃ c tr, signal_calls true 0 (List.replicate 10 2000000) conn_running = some (c, tr) ∧
      (signals tr).length ≤ 1 ∧
      ((signals tr).length = 1 ↔
        (conn_running.ckpt_signalled = false ∧
          ∃ x ∈ List.replicate 10 (2000000 : Int), x ≥ conn_running.ckpt_logsize)) :=
  signal_calls_at_most_one true (List.replicate 10 2000000) conn_running (by decide)

end ConnCkpt
